import Mathlib

/-!
Shallow embedding of the computational core of `fitnessapp.py` (a fitness
diary application).  Numeric values are modelled as exact rationals; the Python
built-in `round(x, n)`, which rounds to the closest multiple of `10^(-n)`
breaking ties toward the even choice (round-half-to-even, per the Python
documentation), is modelled by `pyRound` / `round1` / `round2` below.
Operations that can raise in Python (missing dict key, division by zero)
return `Option`.
-/

namespace FitnessApp

/-- Python `round(x)` to the nearest integer, ties to even. -/
def pyRound (x : ℚ) : ℤ :=
  if x - ⌊x⌋ < 1/2 then ⌊x⌋
  else if 1/2 < x - ⌊x⌋ then ⌊x⌋ + 1
  else if ⌊x⌋ % 2 = 0 then ⌊x⌋ else ⌊x⌋ + 1

/-- Python `round(x, 1)`. -/
def round1 (x : ℚ) : ℚ := (pyRound (x * 10) : ℚ) / 10

/-- Python `round(x, 2)`. -/
def round2 (x : ℚ) : ℚ := (pyRound (x * 100) : ℚ) / 100

/-- One record of the `FOOD_DATA` table: unit kind (`"g"` or `"count"`),
optional base quantity (the `"base"` key, absent for count foods), and the
nutrition figures.  -/
structure FoodInfo where
  unit : String
  base : Option ℚ
  cal : ℚ
  protein : ℚ
  carbs : ℚ
  fat : ℚ
deriving DecidableEq, Repr

/-- The fixed nutrition table `FOOD_DATA` of `fitnessapp.py` (lines 16-32),
as the finite map food-name → record.  -/
def FOOD_DATA (food : String) : Option FoodInfo :=
  if food = "Oats" then some ⟨"g", some 45, 170, 10, 28, 0⟩
  else if food = "Whey Protein" then some ⟨"g", some 34, 120, 25, 5/2, 0⟩
  else if food = "Skim Milk Powder" then some ⟨"g", some 40, 160, 16, 18, 0⟩
  else if food = "PB Powder" then some ⟨"g", some 16, 80, 7, 31/5, 0⟩
  else if food = "Nuts" then some ⟨"g", some 15, 95, 2, 4, 9⟩
  else if food = "White Rice" then some ⟨"g", some 150, 210, 5, 72, 1/2⟩
  else if food = "Tomato" then some ⟨"count", none, 20, 0, 0, 0⟩
  else if food = "Onion" then some ⟨"count", none, 35, 0, 0, 0⟩
  else if food = "Yogurt" then some ⟨"g", some 170, 90, 18, 7, 0⟩
  else if food = "Tortilla" then some ⟨"count", none, 70, 5, 12, 2⟩
  else if food = "Soya Chunks" then some ⟨"g", some 30, 140, 30, 6, 1⟩
  else if food = "Whey Protein Shake" then some ⟨"g", some 34, 120, 25, 2, 0⟩
  else none

/-- `STEPS_PER_MILE` constant (line 35). -/
def STEPS_PER_MILE : ℚ := 1200

/-- `CAL_PER_MILE` constant (line 36). -/
def CAL_PER_MILE : ℚ := 100

/-- Running totals of `calculate_macros` (the dict
`{"cal": _, "protein": _, "carbs": _, "fat": _}`). -/
structure MacroTotals where
  cal : ℚ
  protein : ℚ
  carbs : ℚ
  fat : ℚ
deriving DecidableEq, Repr

/-- One iteration of the loop of `calculate_macros` (lines 55-70) on the
pair `(food, qty)`; a quantity of `none` models Python `None`.  `none` as
result models a raised exception (missing `"base"` key or division by
zero), which the fixed table in fact never produces.  -/
def accumFood (total : MacroTotals) (p : String × Option ℚ) : Option MacroTotals :=
  match p.2 with
  | none => some total
  | some qty =>
    if qty = 0 then some total
    else
      match FOOD_DATA p.1 with
      | none => some total
      | some info =>
        if info.unit = "g" then
          match info.base with
          | none => none
          | some b =>
            if b = 0 then none
            else
              let ratio := qty / b
              some ⟨total.cal + info.cal * ratio, total.protein + info.protein * ratio,
                    total.carbs + info.carbs * ratio, total.fat + info.fat * ratio⟩
        else if info.unit = "count" then
          some ⟨total.cal + info.cal * qty, total.protein + info.protein * qty,
                total.carbs, total.fat⟩
        else some total

/-- The loop of `calculate_macros` over the remaining input pairs. -/
def macroLoop (total : MacroTotals) : List (String × Option ℚ) → Option MacroTotals
  | [] => some total
  | p :: rest =>
    match accumFood total p with
    | none => none
    | some t => macroLoop t rest

/-- `calculate_macros` (lines 52-71): fold the per-food accumulation over the
input pairs, starting from all-zero totals.  The input dict is modelled as
the list of its items in iteration order.  -/
def calculate_macros (food_inputs : List (String × Option ℚ)) : Option MacroTotals :=
  macroLoop ⟨0, 0, 0, 0⟩ food_inputs

/-- `calculate_bmi` (lines 73-78). -/
def calculate_bmi (weight height_cm : ℚ) : Option ℚ :=
  if weight ≤ 0 ∨ height_cm ≤ 0 then none
  else
    let height_m := height_cm / 100
    let bmi := weight / height_m ^ 2
    some (round2 bmi)

/-- `steps_to_miles_calories` (lines 80-83): note `cal_burned` is computed
from the unrounded `miles`.  -/
def steps_to_miles_calories (steps : ℚ) : ℚ × ℚ :=
  let miles := steps / STEPS_PER_MILE
  let cal_burned := miles * CAL_PER_MILE
  (round2 miles, round1 cal_burned)

/-- The fields of a stored daily entry that `generate_weekly_report` reads
(lines 104-110); each optional field models a key that may be absent from
the entry dict.  -/
structure DailyEntry where
  date : String
  weight : Option ℚ
  total_calories : Option ℚ
  total_protein : Option ℚ
  net_calories : Option ℚ
  bmi : Option ℚ
deriving DecidableEq, Repr

/-- The entry-selection step of `generate_weekly_report` (line 93):
`[v for k, v in data.items() if start_date <= k <= end_date]`.  The store
dict is modelled as the list of its key/value pairs in insertion
(= iteration) order; Python string comparison is lexicographic, as is
the Lean `String` order.  -/
def selectRange (data : List (String × DailyEntry)) (start_date end_date : String) :
    List DailyEntry :=
  (data.filter (fun kv => start_date ≤ kv.1 ∧ kv.1 ≤ end_date)).map Prod.snd

/-- A rendered cell of the PDF summary table: the sentinel `"-"`, the
literal `"0"`, or the decimal rendering of a (nonzero) number.  Distinct
numbers render as distinct strings, so `Cell` equality models rendered-text
equality.  -/
inductive Cell where
  | dash : Cell
  | zeroText : Cell
  | num : ℚ → Cell
deriving DecidableEq, Repr

/-- Rendering used for the weight and BMI columns (lines 135 and 139):
`str(v) if v else "-"` on a value fetched with default `None`; Python
truthiness makes both `None` and `0` take the `"-"` branch.  -/
def plainCell (v : Option ℚ) : Cell :=
  match v with
  | none => .dash
  | some x => if x = 0 then .dash else .num x

/-- Rendering used for the calories, protein and net-calories columns
(lines 136-138): the value is fetched with default `0` (lines 107-109),
then rendered `str(round(v, 1)) if v else "0"`.  -/
def roundedCell (v : Option ℚ) : Cell :=
  if v.getD 0 = 0 then .zeroText else .num (round1 (v.getD 0))

/-- One rendered row of the PDF summary table (lines 133-140). -/
structure SummaryRow where
  date : String
  weight : Cell
  calories : Cell
  protein : Cell
  net_cal : Cell
  bmi : Cell
deriving DecidableEq, Repr

/-- The summary-table body of `generate_weekly_report` (lines 104-140), one
row per selected entry, in order.  -/
def summaryRow (e : DailyEntry) : SummaryRow :=
  ⟨e.date, plainCell e.weight, roundedCell e.total_calories,
   roundedCell e.total_protein, roundedCell e.net_calories, plainCell e.bmi⟩

/-- All rendered rows of the report, in entry order. -/
def summaryRows (entries : List DailyEntry) : List SummaryRow :=
  entries.map summaryRow

/-- The pairs of the input dict that contribute to `calculate_macros`:
quantity present, nonzero, and the food known to `FOOD_DATA`.  The loop
`continue`s on exactly the complement (lines 56-60).  -/
def macroKeep (p : String × Option ℚ) : Bool :=
  match p.2 with
  | none => false
  | some q => if q = 0 then false else (FOOD_DATA p.1).isSome

/-! ### Helper lemmas -/

theorem pyRound_intCast (n : ℤ) : pyRound (n : ℚ) = n := by
  unfold pyRound
  rw [Int.floor_intCast]
  rw [if_pos (by norm_num)]

theorem round1_round1 (x : ℚ) : round1 (round1 x) = round1 x := by
  unfold round1
  rw [div_mul_cancel₀ _ (by norm_num : (10 : ℚ) ≠ 0), pyRound_intCast]

theorem pyRound_nonpos {x : ℚ} (hx : x ≤ 0) : pyRound x ≤ 0 := by
  have hf : ⌊x⌋ ≤ 0 := Int.floor_nonpos hx
  have hfx : (⌊x⌋ : ℚ) ≤ x := Int.floor_le x
  unfold pyRound
  split_ifs with h1 h2 h3
  · exact hf
  · have h4 : (⌊x⌋ : ℚ) < 0 := by linarith
    have h5 : ⌊x⌋ < 0 := by exact_mod_cast h4
    omega
  · exact hf
  · have hr : x - ⌊x⌋ = 1/2 := le_antisymm (not_lt.mp h2) (not_lt.mp h1)
    have h4 : (⌊x⌋ : ℚ) < 0 := by linarith
    have h5 : ⌊x⌋ < 0 := by exact_mod_cast h4
    omega

theorem round1_nonpos {x : ℚ} (hx : x ≤ 0) : round1 x ≤ 0 := by
  unfold round1
  have h : pyRound (x * 10) ≤ 0 := pyRound_nonpos (by nlinarith)
  have h2 : (pyRound (x * 10) : ℚ) ≤ 0 := by exact_mod_cast h
  linarith

theorem round2_nonpos {x : ℚ} (hx : x ≤ 0) : round2 x ≤ 0 := by
  unfold round2
  have h : pyRound (x * 100) ≤ 0 := pyRound_nonpos (by nlinarith)
  have h2 : (pyRound (x * 100) : ℚ) ≤ 0 := by exact_mod_cast h
  linarith

/-! ### Claims -/

/-- C7: `calculate_bmi` returns `none` exactly when `weight ≤ 0` or
`height_cm ≤ 0`, and otherwise returns `weight / (height_cm/100)^2` rounded
to 2 decimal places; in particular `calculate_bmi 0 170 = none`,
`calculate_bmi 70 0 = none` and `calculate_bmi 70 170 = some 24.22`. -/
theorem claim_C7 (weight height_cm : ℚ) :
    (calculate_bmi weight height_cm = none ↔ weight ≤ 0 ∨ height_cm ≤ 0) ∧
    (0 < weight → 0 < height_cm →
      calculate_bmi weight height_cm =
        some (round2 (weight / (height_cm / 100) ^ 2))) ∧
    calculate_bmi 0 170 = none ∧
    calculate_bmi 70 0 = none ∧
    calculate_bmi 70 170 = some (1211 / 50) := by
  refine ⟨?_, ?_, by norm_num [calculate_bmi], by norm_num [calculate_bmi], ?_⟩
  · unfold calculate_bmi
    split_ifs with h
    · simp [h]
    · simp [h]
  · intro hw hh
    unfold calculate_bmi
    rw [if_neg (by push_neg; exact ⟨hw, hh⟩)]
  · norm_num [calculate_bmi, round2, pyRound]

/-- C7 witness: the positive-input branch of `claim_C7` at (70, 170). -/
theorem claim_C7_witness :
    calculate_bmi 70 170 = some (round2 (70 / ((170 : ℚ) / 100) ^ 2)) :=
  (claim_C7 70 170).2.1 (by norm_num) (by norm_num)

/-- C4 counterexample: on the negative input `-1200`,
`steps_to_miles_calories` returns `(-1, -100)`, not `(0, 0)` as the claim
states for every `steps ≤ 0`. -/
theorem claim_C4_counterexample :
    steps_to_miles_calories (-1200) = (-1, -100) ∧
    ((-1 : ℚ), (-100 : ℚ)) ≠ ((0 : ℚ), (0 : ℚ)) := by
  constructor
  · norm_num [steps_to_miles_calories, STEPS_PER_MILE, CAL_PER_MILE,
      round1, round2, pyRound]
  · norm_num

/-- C4 (amended): `steps_to_miles_calories 0 = (0, 0)` and no error is
raised for any input (the function is total); for `steps ≤ 0` both results
are `≤ 0` (negative steps scale linearly to negative outputs, they are not
clamped to zero). -/
theorem claim_C4 (steps : ℚ) (h : steps ≤ 0) :
    steps_to_miles_calories 0 = (0, 0) ∧
    (steps_to_miles_calories steps).1 ≤ 0 ∧
    (steps_to_miles_calories steps).2 ≤ 0 := by
  refine ⟨?_, ?_, ?_⟩
  · norm_num [steps_to_miles_calories, STEPS_PER_MILE, CAL_PER_MILE,
      round1, round2, pyRound]
  · show round2 (steps / STEPS_PER_MILE) ≤ 0
    exact round2_nonpos (by unfold STEPS_PER_MILE; linarith)
  · show round1 (steps / STEPS_PER_MILE * CAL_PER_MILE) ≤ 0
    exact round1_nonpos (by unfold STEPS_PER_MILE CAL_PER_MILE; nlinarith)

/-- C4 witness: `claim_C4` applied at `-1200`. -/
theorem claim_C4_witness :
    steps_to_miles_calories 0 = (0, 0) ∧
    (steps_to_miles_calories (-1200)).1 ≤ 0 ∧
    (steps_to_miles_calories (-1200)).2 ≤ 0 :=
  claim_C4 (-1200) (by norm_num)

/-- C1 counterexample: at `steps = 1` the code returns
`caloriesBurned = 0.1`, computed from the unrounded quotient, whereas
rounding the already-rounded miles value (`round2 (1/1200) = 0`) times 100
gives `0`. -/
theorem claim_C1_counterexample :
    steps_to_miles_calories 1 = (0, 1 / 10) ∧
    round1 (round2 ((1 : ℚ) / 1200) * 100) = 0 ∧
    (1 / 10 : ℚ) ≠ 0 := by
  refine ⟨?_, ?_, by norm_num⟩
  · norm_num [steps_to_miles_calories, STEPS_PER_MILE, CAL_PER_MILE,
      round1, round2, pyRound]
  · norm_num [round1, round2, pyRound]

/-- C1 (amended): for every steps input, `miles = round2 (steps / 1200)`,
and `caloriesBurned = round1 (steps * 100 / 1200)` is derived from the
unrounded quotient (not from the rounded miles value). -/
theorem claim_C1 (steps : ℚ) :
    (steps_to_miles_calories steps).1 = round2 (steps / 1200) ∧
    (steps_to_miles_calories steps).2 = round1 (steps * 100 / 1200) := by
  constructor
  · rfl
  · show round1 (steps / STEPS_PER_MILE * CAL_PER_MILE) = round1 (steps * 100 / 1200)
    unfold STEPS_PER_MILE CAL_PER_MILE
    congr 1
    ring

theorem food_data_mass_base (food : String) (info : FoodInfo)
    (hf : FOOD_DATA food = some info) (hg : info.unit = "g") :
    ∃ b, info.base = some b ∧ 0 < b := by
  unfold FOOD_DATA at hf
  by_cases h1 : food = "Oats"
  · rw [if_pos h1] at hf; obtain rfl := Option.some.inj hf
    exact ⟨45, rfl, by norm_num⟩
  rw [if_neg h1] at hf
  by_cases h2 : food = "Whey Protein"
  · rw [if_pos h2] at hf; obtain rfl := Option.some.inj hf
    exact ⟨34, rfl, by norm_num⟩
  rw [if_neg h2] at hf
  by_cases h3 : food = "Skim Milk Powder"
  · rw [if_pos h3] at hf; obtain rfl := Option.some.inj hf
    exact ⟨40, rfl, by norm_num⟩
  rw [if_neg h3] at hf
  by_cases h4 : food = "PB Powder"
  · rw [if_pos h4] at hf; obtain rfl := Option.some.inj hf
    exact ⟨16, rfl, by norm_num⟩
  rw [if_neg h4] at hf
  by_cases h5 : food = "Nuts"
  · rw [if_pos h5] at hf; obtain rfl := Option.some.inj hf
    exact ⟨15, rfl, by norm_num⟩
  rw [if_neg h5] at hf
  by_cases h6 : food = "White Rice"
  · rw [if_pos h6] at hf; obtain rfl := Option.some.inj hf
    exact ⟨150, rfl, by norm_num⟩
  rw [if_neg h6] at hf
  by_cases h7 : food = "Tomato"
  · rw [if_pos h7] at hf; obtain rfl := Option.some.inj hf
    exact absurd hg (by decide)
  rw [if_neg h7] at hf
  by_cases h8 : food = "Onion"
  · rw [if_pos h8] at hf; obtain rfl := Option.some.inj hf
    exact absurd hg (by decide)
  rw [if_neg h8] at hf
  by_cases h9 : food = "Yogurt"
  · rw [if_pos h9] at hf; obtain rfl := Option.some.inj hf
    exact ⟨170, rfl, by norm_num⟩
  rw [if_neg h9] at hf
  by_cases h10 : food = "Tortilla"
  · rw [if_pos h10] at hf; obtain rfl := Option.some.inj hf
    exact absurd hg (by decide)
  rw [if_neg h10] at hf
  by_cases h11 : food = "Soya Chunks"
  · rw [if_pos h11] at hf; obtain rfl := Option.some.inj hf
    exact ⟨30, rfl, by norm_num⟩
  rw [if_neg h11] at hf
  by_cases h12 : food = "Whey Protein Shake"
  · rw [if_pos h12] at hf; obtain rfl := Option.some.inj hf
    exact ⟨34, rfl, by norm_num⟩
  rw [if_neg h12] at hf
  exact Option.noConfusion hf

theorem accumFood_isSome (t : MacroTotals) (p : String × Option ℚ) :
    (accumFood t p).isSome = true := by
  obtain ⟨food, q⟩ := p
  cases q with
  | none => rfl
  | some qty =>
    show (if qty = 0 then some t else _).isSome = true
    split_ifs with hq
    · rfl
    · rcases hfd : FOOD_DATA food with _ | info
      · simp [accumFood, hq, hfd]
      · by_cases hg : info.unit = "g"
        · obtain ⟨b, hb, hbpos⟩ := food_data_mass_base food info hfd hg
          simp [accumFood, hq, hfd, hg, hb, ne_of_gt hbpos]
        · by_cases hc : info.unit = "count" <;>
            simp [accumFood, hq, hfd, hg, hc]

theorem macroLoop_isSome (l : List (String × Option ℚ)) (t : MacroTotals) :
    (macroLoop t l).isSome = true := by
  induction l generalizing t with
  | nil => rfl
  | cons p rest ih =>
    show (match accumFood t p with
          | none => none
          | some t2 => macroLoop t2 rest).isSome = true
    rcases h : accumFood t p with _ | t2
    · exact absurd (h ▸ accumFood_isSome t p) (by simp)
    · exact ih t2

/-- C5: for every mass-based food of the reference table,
`calculate_macros` on that single food at exactly its base quantity
reproduces the table values of that food exactly. -/
theorem claim_C5 (food : String) (info : FoodInfo) (b : ℚ)
    (hf : FOOD_DATA food = some info) (hg : info.unit = "g")
    (hb : info.base = some b) :
    calculate_macros [(food, some b)] =
      some ⟨info.cal, info.protein, info.carbs, info.fat⟩ := by
  obtain ⟨b2, hb2, hbpos⟩ := food_data_mass_base food info hf hg
  rw [hb] at hb2
  obtain rfl := Option.some.inj hb2
  have hbne : b ≠ 0 := ne_of_gt hbpos
  simp [calculate_macros, macroLoop, accumFood, hf, hg, hb, hbne, div_self hbne]

/-- C5 witness: `claim_C5` at the food `"Oats"` with its base quantity 45. -/
theorem claim_C5_witness :
    calculate_macros [("Oats", some 45)] = some ⟨170, 10, 28, 0⟩ :=
  claim_C5 "Oats" ⟨"g", some 45, 170, 10, 28, 0⟩ 45 rfl rfl rfl

/-- C6 counterexample: not every count-based food of the table carries zero
carbs and fat: `"Tortilla"` is count-based with carbs 12 and fat 2. -/
theorem claim_C6_counterexample :
    ¬ (∀ food info, FOOD_DATA food = some info → info.unit = "count" →
        info.carbs = 0 ∧ info.fat = 0) := by
  intro h
  have := h "Tortilla" ⟨"count", none, 70, 5, 12, 2⟩ rfl rfl
  norm_num at this

/-- C6 (amended): for every count-based food and nonzero quantity, the loop
of `calculate_macros` accumulates `caloriesPerBase*qty` and
`proteinPerBase*qty` only, leaving the carbs and fat totals unchanged
regardless of the table values.  The count foods `"Tomato"` and `"Onion"`
carry zero carbs and fat in the table, but `"Tortilla"` carries carbs 12
and fat 2, which the calculator drops. -/
theorem claim_C6 (food : String) (info : FoodInfo) (q : ℚ) (total : MacroTotals)
    (hf : FOOD_DATA food = some info) (hc : info.unit = "count") (hq : q ≠ 0) :
    accumFood total (food, some q) =
      some ⟨total.cal + info.cal * q, total.protein + info.protein * q,
            total.carbs, total.fat⟩ ∧
    FOOD_DATA "Tomato" = some ⟨"count", none, 20, 0, 0, 0⟩ ∧
    FOOD_DATA "Onion" = some ⟨"count", none, 35, 0, 0, 0⟩ ∧
    FOOD_DATA "Tortilla" = some ⟨"count", none, 70, 5, 12, 2⟩ := by
  refine ⟨?_, rfl, rfl, rfl⟩
  show (if q = 0 then some total else _) = _
  rw [if_neg hq, hf]
  have hng : info.unit ≠ "g" := by rw [hc]; decide
  simp only [if_neg hng, if_pos hc]

/-- C6 witness: `claim_C6` at `"Tortilla"` with quantity 3. -/
theorem claim_C6_witness :
    accumFood ⟨0, 0, 0, 0⟩ ("Tortilla", some 3) =
      some ⟨0 + 70 * 3, 0 + 5 * 3, 0, 0⟩ ∧
    FOOD_DATA "Tortilla" = some ⟨"count", none, 70, 5, 12, 2⟩ :=
  ⟨(claim_C6 "Tortilla" ⟨"count", none, 70, 5, 12, 2⟩ 3 ⟨0, 0, 0, 0⟩ rfl rfl
      (by norm_num)).1, rfl⟩

/-- C10: `calculate_macros` is total on every input (no missing-key or
division-by-zero failure is reachable), because the division by
`baseQuantity` is only reached for table foods with a mass unit, and every
mass-unit entry of the fixed table defines a positive base quantity. -/
theorem claim_C10 :
    (∀ l : List (String × Option ℚ), (calculate_macros l).isSome = true) ∧
    (∀ food info, FOOD_DATA food = some info → info.unit = "g" →
      ∃ b, info.base = some b ∧ 0 < b) :=
  ⟨fun l => macroLoop_isSome l ⟨0, 0, 0, 0⟩, food_data_mass_base⟩

/-- C10 witness: `claim_C10` at a concrete input list and at `"Oats"`. -/
theorem claim_C10_witness :
    (calculate_macros [("Oats", some 2), ("Banana", some 1)]).isSome = true ∧
    ∃ b, (⟨"g", some 45, 170, 10, 28, 0⟩ : FoodInfo).base = some b ∧ 0 < b :=
  ⟨claim_C10.1 _, claim_C10.2 "Oats" ⟨"g", some 45, 170, 10, 28, 0⟩ rfl rfl⟩

theorem accumFood_not_keep (t : MacroTotals) (p : String × Option ℚ)
    (hp : macroKeep p = false) : accumFood t p = some t := by
  obtain ⟨food, q⟩ := p
  cases q with
  | none => rfl
  | some qty =>
    simp only [macroKeep] at hp
    by_cases hq : qty = 0
    · simp [accumFood, hq]
    · rw [if_neg hq] at hp
      rcases h : FOOD_DATA food with _ | i
      · simp [accumFood, hq, h]
      · rw [h] at hp
        simp at hp

theorem macroLoop_filter (l : List (String × Option ℚ)) (t : MacroTotals) :
    macroLoop t l = macroLoop t (l.filter macroKeep) := by
  induction l generalizing t with
  | nil => rfl
  | cons p rest ih =>
    by_cases hk : macroKeep p = true
    · rw [List.filter_cons_of_pos hk]
      show (match accumFood t p with
            | none => none
            | some t2 => macroLoop t2 rest) =
           (match accumFood t p with
            | none => none
            | some t2 => macroLoop t2 (rest.filter macroKeep))
      cases accumFood t p with
      | none => rfl
      | some t2 => exact ih t2
    · have hk2 : macroKeep p = false := by simpa using hk
      rw [List.filter_cons_of_neg (by simp [hk2])]
      show (match accumFood t p with
            | none => none
            | some t2 => macroLoop t2 rest) = macroLoop t (rest.filter macroKeep)
      rw [accumFood_not_keep t p hk2]
      exact ih t

/-- C8: `calculate_macros` returns the same totals when a pair whose
quantity is `None` or zero, or whose food is unknown to the table, is
removed; on a list of only such pairs (in particular the empty list) it
returns all-zero totals; and it raises no error on any input. -/
theorem claim_C8 (l l₁ l₂ : List (String × Option ℚ)) (p : String × Option ℚ)
    (hp : macroKeep p = false) :
    calculate_macros (l₁ ++ p :: l₂) = calculate_macros (l₁ ++ l₂) ∧
    calculate_macros (l.filter (fun q => ! macroKeep q)) = some ⟨0, 0, 0, 0⟩ ∧
    calculate_macros [] = some ⟨0, 0, 0, 0⟩ ∧
    (calculate_macros l).isSome = true := by
  refine ⟨?_, ?_, rfl, macroLoop_isSome l _⟩
  · unfold calculate_macros
    rw [macroLoop_filter (l₁ ++ p :: l₂), macroLoop_filter (l₁ ++ l₂)]
    rw [List.filter_append, List.filter_append, List.filter_cons_of_neg (by simp [hp])]
  · unfold calculate_macros
    rw [macroLoop_filter]
    have hnil : (l.filter (fun q => ! macroKeep q)).filter macroKeep = [] := by
      refine List.filter_eq_nil_iff.mpr ?_
      intro a ha
      have h2 := (List.mem_filter.mp ha).2
      simp only [Bool.not_eq_true'] at h2
      simp [h2]
    rw [hnil]
    rfl

/-- C8 witness: `claim_C8` at the unknown food `"Banana"`, a zero-quantity
pair and a concrete list. -/
theorem claim_C8_witness :
    calculate_macros ([("Oats", some 45)] ++ ("Banana", some 3) :: []) =
      calculate_macros ([("Oats", some 45)] ++ []) ∧
    calculate_macros ([("Tomato", some 0)].filter (fun q => ! macroKeep q)) =
      some ⟨0, 0, 0, 0⟩ ∧
    calculate_macros [] = some ⟨0, 0, 0, 0⟩ ∧
    (calculate_macros [("Tomato", some 0)]).isSome = true :=
  claim_C8 [("Tomato", some 0)] [("Oats", some 45)] [] ("Banana", some 3)
    (by norm_num [macroKeep, show FOOD_DATA "Banana" = none from rfl])

/-- C2 counterexample: the range selection of the report keeps the
insertion/iteration order of the store; on a store whose keys were inserted out of
order, the three in-range entries come back in that out-of-order sequence,
not sorted ascending by date. -/
theorem claim_C2_counterexample :
    selectRange
      [("2024-01-05", ⟨"2024-01-05", none, none, none, none, none⟩),
       ("2024-01-03", ⟨"2024-01-03", none, none, none, none, none⟩),
       ("2024-01-04", ⟨"2024-01-04", none, none, none, none, none⟩),
       ("2024-01-01", ⟨"2024-01-01", none, none, none, none, none⟩)]
      "2024-01-03" "2024-01-05" =
    [⟨"2024-01-05", none, none, none, none, none⟩,
     ⟨"2024-01-03", none, none, none, none, none⟩,
     ⟨"2024-01-04", none, none, none, none, none⟩] ∧
    ([(⟨"2024-01-05", none, none, none, none, none⟩ : DailyEntry),
      ⟨"2024-01-03", none, none, none, none, none⟩,
      ⟨"2024-01-04", none, none, none, none, none⟩] : List DailyEntry) ≠
    [⟨"2024-01-03", none, none, none, none, none⟩,
     ⟨"2024-01-04", none, none, none, none, none⟩,
     ⟨"2024-01-05", none, none, none, none, none⟩] := by
  constructor
  · unfold selectRange
    rw [List.filter_cons_of_pos (by
      refine decide_eq_true ?_
      exact ⟨String.le_iff_toList_le.mpr (by decide),
             String.le_iff_toList_le.mpr (by decide)⟩)]
    rw [List.filter_cons_of_pos (by
      refine decide_eq_true ?_
      exact ⟨String.le_iff_toList_le.mpr (by decide),
             String.le_iff_toList_le.mpr (by decide)⟩)]
    rw [List.filter_cons_of_pos (by
      refine decide_eq_true ?_
      exact ⟨String.le_iff_toList_le.mpr (by decide),
             String.le_iff_toList_le.mpr (by decide)⟩)]
    rw [List.filter_cons_of_neg (by
      intro hc
      have h2 := (of_decide_eq_true hc).1
      rw [String.le_iff_toList_le] at h2
      exact absurd h2 (by decide))]
    rfl
  · intro hc
    have h2 := congrArg (fun l => l.head? ) hc
    simp at h2

/-- C2 (amended): the range selection returns exactly the entries whose
key lies between the bounds inclusive, in the insertion/iteration order
of the store; the selected pairs are in ascending key order whenever the
keys of the store are (but not regardless of insertion order). -/
theorem claim_C2 (data : List (String × DailyEntry)) (s e : String) :
    (∀ v : DailyEntry, v ∈ selectRange data s e ↔
      ∃ k, (k, v) ∈ data ∧ s ≤ k ∧ k ≤ e) ∧
    (data.Pairwise (fun a b => a.1 < b.1) →
      (data.filter (fun kv => s ≤ kv.1 ∧ kv.1 ≤ e)).Pairwise
        (fun a b => a.1 < b.1)) := by
  constructor
  · intro v
    unfold selectRange
    simp only [List.mem_map, List.mem_filter, decide_eq_true_eq]
    constructor
    · rintro ⟨⟨k, w⟩, ⟨hmem, hks, hke⟩, rfl⟩
      exact ⟨k, hmem, hks, hke⟩
    · rintro ⟨k, hmem, hks, hke⟩
      exact ⟨(k, v), ⟨hmem, hks, hke⟩, rfl⟩
  · intro hp
    exact List.Pairwise.sublist (List.filter_sublist data) hp

/-- C2 witness: `claim_C2` on a store whose keys are inserted in ascending
order. -/
theorem claim_C2_witness :
    ([("2024-01-03", (⟨"2024-01-03", none, none, none, none, none⟩ : DailyEntry)),
      ("2024-01-04", ⟨"2024-01-04", none, none, none, none, none⟩)].filter
        (fun kv => "2024-01-03" ≤ kv.1 ∧ kv.1 ≤ "2024-01-05")).Pairwise
      (fun a b => a.1 < b.1) :=
  (claim_C2 _ "2024-01-03" "2024-01-05").2 (by
    refine List.Pairwise.cons ?_ (List.pairwise_singleton _ _)
    intro a ha
    rw [List.mem_singleton] at ha
    subst ha
    exact String.lt_iff_toList_lt.mpr (by decide))

/-- C9 counterexample: an entry with no `total_calories` key renders the
same summary row as an entry storing `total_calories = 0` — the missing
field is rendered as the numeric default `"0"`, not as a distinguishable
sentinel. -/
theorem claim_C9_counterexample :
    summaryRow ⟨"2024-01-01", some 70, none, some 50, some 50, some 24⟩ =
      summaryRow ⟨"2024-01-01", some 70, some 0, some 50, some 50, some 24⟩ ∧
    (summaryRow ⟨"2024-01-01", some 70, none, some 50, some 50, some 24⟩).calories
      = Cell.zeroText ∧
    (⟨"2024-01-01", some 70, none, some 50, some 50, some 24⟩ : DailyEntry) ≠
      ⟨"2024-01-01", some 70, some 0, some 50, some 50, some 24⟩ := by
  refine ⟨?_, ?_, by simp⟩
  · norm_num [summaryRow, plainCell, roundedCell]
  · norm_num [summaryRow, roundedCell]

/-- C9 (amended): `summaryRows` is a pass-through projection of
`{date, weight, totalCalories, totalProtein, netCalories, bmi}` in which a
missing (or zero) weight or BMI renders the sentinel `"-"`, while a missing
totalCalories/totalProtein/netCalories is defaulted to 0 and renders the
text `"0"` exactly as a stored zero does — so for those columns a missing
value is *not* distinguishable from a stored zero; nonzero values render
as numbers (rounded to 1 decimal for the calorie/protein columns). -/
theorem claim_C9 (entries : List DailyEntry) (e : DailyEntry) :
    summaryRows entries = entries.map summaryRow ∧
    (summaryRow e).date = e.date ∧
    ((summaryRow e).weight = Cell.dash ↔ e.weight = none ∨ e.weight = some 0) ∧
    ((summaryRow e).bmi = Cell.dash ↔ e.bmi = none ∨ e.bmi = some 0) ∧
    ((summaryRow e).calories = Cell.zeroText ↔ e.total_calories.getD 0 = 0) ∧
    ((summaryRow e).protein = Cell.zeroText ↔ e.total_protein.getD 0 = 0) ∧
    ((summaryRow e).net_cal = Cell.zeroText ↔ e.net_calories.getD 0 = 0) ∧
    (∀ x : ℚ, e.total_calories = some x → x ≠ 0 →
      (summaryRow e).calories = Cell.num (round1 x)) := by
  refine ⟨rfl, rfl, ?_, ?_, ?_, ?_, ?_, ?_⟩
  · show plainCell e.weight = Cell.dash ↔ _
    cases hw : e.weight with
    | none => simp [plainCell]
    | some w =>
      simp only [plainCell]
      split_ifs with h
      · simp [h]
      · simp [h]
  · show plainCell e.bmi = Cell.dash ↔ _
    cases hw : e.bmi with
    | none => simp [plainCell]
    | some w =>
      simp only [plainCell]
      split_ifs with h
      · simp [h]
      · simp [h]
  · show roundedCell e.total_calories = Cell.zeroText ↔ _
    unfold roundedCell
    split_ifs with h
    · simp [h]
    · simp [h]
  · show roundedCell e.total_protein = Cell.zeroText ↔ _
    unfold roundedCell
    split_ifs with h
    · simp [h]
    · simp [h]
  · show roundedCell e.net_calories = Cell.zeroText ↔ _
    unfold roundedCell
    split_ifs with h
    · simp [h]
    · simp [h]
  · intro x hx hxne
    show roundedCell e.total_calories = _
    rw [hx]
    unfold roundedCell
    simp [hxne]

/-- C9 witness: the nonzero-calories branch of `claim_C9` at a concrete entry. -/
theorem claim_C9_witness :
    (summaryRow ⟨"2024-01-02", none, some 5, none, none, none⟩).calories =
      Cell.num (round1 5) :=
  (claim_C9 [] ⟨"2024-01-02", none, some 5, none, none, none⟩).2.2.2.2.2.2.2 5
    rfl (by norm_num)

end FitnessApp
